import Mathlib

/-!
Verification development for the Barrett Cove campground availability
checker (`check-availability.js`).  The script drives a headless browser
to a Campspot booking page, scrapes the rendered DOM for campsite
availability, and optionally loops and notifies.  The definitions below
are a shallow embedding of that script: pure JavaScript computations
become Lean functions, the browser/page environment becomes explicit
input data (`Page`, `ProbeEnv`), and JavaScript `undefined` / `NaN`
become `Option` values.
-/

set_option autoImplicit false

namespace CampCheck

/-! ### String helpers (modelling JS string primitives used by the script) -/

/-- Test whether the char list `s` starts with `p`.
Models the anchored part of JS `String.prototype.includes`. -/
def startsWithL : List Char → List Char → Bool
  | [], _ => true
  | _ :: _, [] => false
  | p :: ps, c :: cs => p == c && startsWithL ps cs

/-- Test whether `hay` contains `needle` as a contiguous substring.
Models JS `hay.includes(needle)`. -/
def subOf (needle : List Char) : List Char → Bool
  | [] => startsWithL needle []
  | c :: t => startsWithL needle (c :: t) || subOf needle t

/-- String-level wrapper for `subOf`: JS `hay.includes(needle)`. -/
def containsStr (hay needle : String) : Bool := subOf needle.data hay.data

/-- ASCII lower-casing; models JS `toLowerCase()` on the ASCII text the
script compares against. -/
def lowerStr (s : String) : String := String.mk (s.data.map Char.toLower)

/-- Accumulate a decimal digit run into a number. -/
def digitsToNat (ds : List Char) : Nat :=
  ds.foldl (fun n c => n * 10 + (c.toNat - '0'.toNat)) 0

/-- JS `parseInt(s, 10)` on a char list: skip leading whitespace, read an
optional sign and a maximal decimal digit run; `none` models `NaN`. -/
def jsParseIntChars (cs : List Char) : Option Int :=
  let cs₁ := cs.dropWhile (fun ch => ch = ' ' || ch = '\t' || ch = '\n' || ch = '\r')
  match cs₁ with
  | '-' :: t =>
      let ds := t.takeWhile Char.isDigit
      if ds.isEmpty then none else some (-(digitsToNat ds : Int))
  | '+' :: t =>
      let ds := t.takeWhile Char.isDigit
      if ds.isEmpty then none else some (digitsToNat ds : Int)
  | t =>
      let ds := t.takeWhile Char.isDigit
      if ds.isEmpty then none else some (digitsToNat ds : Int)

/-- JS `parseInt(x, 10)` where `x` may be `undefined` (modelled `none`):
`parseInt(undefined, 10)` coerces to the string `"undefined"` and yields
`NaN`, modelled as `none`. -/
def jsParseInt : Option String → Option Int
  | none => none
  | some s => jsParseIntChars s.data

/-- JS template interpolation `${x}` of a possibly-`undefined` string. -/
def jsTemplate : Option String → String
  | none => "undefined"
  | some s => s

/-! ### Configuration (`DEFAULT_CONFIG`, lines 30-43) -/

/-- The script's configuration object.  String-valued CLI fields are
`Option String` (`none` = JS `undefined`, reachable when a value flag is
the last token); `parseInt`-produced fields are `Option Int` (`none` =
`NaN`). -/
structure Config where
  url : String
  checkIn : Option String
  checkOut : Option String
  rvType : Option String
  rvLength : Option Int
  guests : Int
  loop : Bool
  interval : Option Int
  notify : Bool
  headless : Bool
  timeout : Int
  waitForResults : Int
  deriving Repr, DecidableEq

/-- The `DEFAULT_CONFIG` object (lines 30-43). -/
def DEFAULT_CONFIG : Config :=
  { url := "https://book.lakemcclure.com/campgrounds/barrett-cove-camping-recreation"
  , checkIn := some "2026-03-13"
  , checkOut := some "2026-03-14"
  , rvType := some "travel trailer"
  , rvLength := some 30
  , guests := 1
  , loop := false
  , interval := some 15
  , notify := false
  , headless := true
  , timeout := 60000
  , waitForResults := 15000 }

/-! ### CLI parsing (`parseArgs`, lines 46-102) -/

/-- The flag tokens recognised by the `switch` in `parseArgs`. -/
def knownToken (t : String) : Bool :=
  t == "--check-in" || t == "--check-out" || t == "--rv-type" ||
  t == "--rv-length" || t == "--loop" || t == "--interval" ||
  t == "--notify" || t == "--headless" || t == "--no-headless" ||
  t == "--help" || t == "-h"

/-- The `for`/`switch` loop body of `parseArgs`.  A value flag consumes
the next token (`args[++i]`); at the end of the list that read yields JS
`undefined`, modelled by storing `none`.  `--help` / `-h` print usage and
call `process.exit(0)` (line 98): the function never returns, modelled by
`none`.  Unrecognised tokens hit no `case` and are skipped. -/
def parseLoop : Config → List String → Option Config
  | c, [] => some c
  | c, a :: rest =>
    if a = "--check-in" then
      match rest with
      | [] => parseLoop { c with checkIn := none } []
      | v :: rest₂ => parseLoop { c with checkIn := some v } rest₂
    else if a = "--check-out" then
      match rest with
      | [] => parseLoop { c with checkOut := none } []
      | v :: rest₂ => parseLoop { c with checkOut := some v } rest₂
    else if a = "--rv-type" then
      match rest with
      | [] => parseLoop { c with rvType := none } []
      | v :: rest₂ => parseLoop { c with rvType := some v } rest₂
    else if a = "--rv-length" then
      match rest with
      | [] => parseLoop { c with rvLength := jsParseInt none } []
      | v :: rest₂ => parseLoop { c with rvLength := jsParseInt (some v) } rest₂
    else if a = "--loop" then
      parseLoop { c with loop := true } rest
    else if a = "--interval" then
      match rest with
      | [] => parseLoop { c with interval := jsParseInt none } []
      | v :: rest₂ => parseLoop { c with interval := jsParseInt (some v) } rest₂
    else if a = "--notify" then
      parseLoop { c with notify := true } rest
    else if a = "--headless" then
      parseLoop { c with headless := true } rest
    else if a = "--no-headless" then
      parseLoop { c with headless := false } rest
    else if a = "--help" ∨ a = "-h" then
      none
    else
      parseLoop c rest

/-- The `parseArgs` function (lines 46-102): start from a copy of `DEFAULT_CONFIG` and
fold the argument list.  `none` models the `process.exit(0)` path. -/
def parseArgs (args : List String) : Option Config :=
  parseLoop DEFAULT_CONFIG args

/-! ### Notification helper (`sendNotification`, lines 105-117) -/

/-- Values of `process.platform` the helper distinguishes. -/
inductive Platform
  | darwin
  | linux
  | other
  deriving Repr, DecidableEq

/-- Observable effects of one `sendNotification` call. -/
structure NotifyFx where
  cmdAttempted : Bool
  cmdFailed : Bool
  bell : Bool
  propagated : Bool
  deriving Repr, DecidableEq

/-- The `sendNotification` helper (lines 105-117): on macOS/Linux run the platform
notification command inside `try`/`catch` (the catch body is empty, so a
command failure — `cmdOk = false` — is swallowed); on every path write the
terminal bell `\x07`.  Nothing is ever re-thrown. -/
def sendNotification (plat : Platform) (cmdOk : Bool) : NotifyFx :=
  let attempted := plat == Platform.darwin || plat == Platform.linux
  { cmdAttempted := attempted
  , cmdFailed := attempted && !cmdOk
  , bell := true
  , propagated := false }

/-! ### The rendered page, as the script's queries see it -/

/-- One element of `document.querySelectorAll('button, div, span, a, input')`
(line 235), in document order.  `matchesEditSel` records whether the
element is returned by the `page.$` edit-button query (line 224) — which
element (if any) a selector resolves to is the browser's business, so it
is environment data here. -/
structure Elem where
  text : String
  matchesEditSel : Bool
  deriving Repr, DecidableEq

/-- One DOM node matched by the card selectors on lines 318-322
(`[class*="site-card"]`, `[class*="campsite"]`, …), with the text of the
optional sub-nodes the script queries inside it (lines 325-336); `none`
models a failed sub-query. -/
structure Card where
  nameText : Option String
  priceText : Option String
  detailsText : Option String
  availText : Option String
  fullText : String
  deriving Repr, DecidableEq

/-- The rendered page as observed by the script's DOM queries. -/
structure Page where
  /-- Results of `querySelectorAll('button, div, span, a, input')`. -/
  elems : List Elem
  /-- elements matched by the card selectors (lines 318-322). -/
  cards : List Card
  /-- Text of `document.body.textContent`. -/
  bodyText : String
  /-- Text of `querySelector('main, [class*="content"], [class*="results"]')`,
  `none` when no such element exists. -/
  mainText : Option String
  /-- texts of `querySelectorAll('[class*="filter"], …')` matches. -/
  filterTexts : List String
  deriving Repr, DecidableEq

/-! ### Intercepted network responses (lines 163-177) -/

/-- A record inside an API `sites`/`results`/`campsites`/`availability`
array, with the fields the reporting loop reads (lines 392-397). -/
structure SiteRecord where
  name : Option String
  price : Option String
  available : Option Bool
  deriving Repr, DecidableEq

/-- The JSON body of a captured response, restricted to the four keys the
script probes (line 388-389).  `none` models an absent key. -/
structure ApiData where
  sites : Option (List SiteRecord)
  results : Option (List SiteRecord)
  campsites : Option (List SiteRecord)
  availability : Option (List SiteRecord)
  deriving Repr, DecidableEq

/-- Evaluate `data.sites || data.results || data.campsites || data.availability`
(line 389): the first present array wins. -/
def recognizedArray (d : ApiData) : Option (List SiteRecord) :=
  d.sites <|> d.results <|> d.campsites <|> d.availability

/-- A network response seen by the `page.on('response')` handler.  `json`
is `none` when `response.json()` throws (non-JSON body, line 173-175). -/
structure RawResponse where
  url : String
  json : Option ApiData
  deriving Repr, DecidableEq

/-- The URL filter of the response handler (lines 166-169). -/
def apiUrlMatch (url : String) : Bool :=
  containsStr url "/api/" &&
    (containsStr url "availability" || containsStr url "search" ||
     containsStr url "sites" || containsStr url "campground")

/-- A captured API response pushed onto `apiResponses` (line 172). -/
structure ApiResponse where
  url : String
  data : ApiData
  deriving Repr, DecidableEq

/-- The contents of the `apiResponses` array after the page settles:
responses whose URL passes the filter and whose body parsed as JSON. -/
def captureApi (rs : List RawResponse) : List ApiResponse :=
  rs.filterMap fun r =>
    if apiUrlMatch r.url then (r.json.map fun j => ⟨r.url, j⟩) else none

/-! ### Scraping the page (`page.evaluate`, lines 309-374) -/

/-- One entry of `data.sitesFound` (lines 338-344). -/
structure SiteInfo where
  name : String
  price : String
  details : String
  availability : String
  fullText : String
  deriving Repr, DecidableEq

/-- The object returned by the big `page.evaluate` (lines 310-315). -/
structure Results where
  sitesFound : List SiteInfo
  noSitesMessage : Option String
  pageText : String
  filterOptions : List String
  deriving Repr, DecidableEq

/-- The "no sites available" body-text scan (lines 348-355). -/
def noSitesSignal (bodyText : String) : Bool :=
  let body := lowerStr bodyText
  containsStr body "no sites available" || containsStr body "no results" ||
  containsStr body "no campsites" || containsStr body "nothing available" ||
  containsStr body "no availability"

/-- The big `page.evaluate` (lines 309-374).  `rvType` and `rvLength`
are passed in from `config` (line 374) but — exactly as in the source —
never read by the evaluated function, so they are unused parameters
here.  `sitesFound` collects one entry per card-selector match;
`noSitesMessage` comes from the body-text scan; `pageText` is the main
content excerpt (`''` when no main element); `filterOptions` the filter
texts. -/
def extractResults (_rvType : Option String) (_rvLength : Option Int)
    (page : Page) : Results :=
  { sitesFound := page.cards.map fun card =>
      { name := card.nameText.getD "Unknown"
      , price := card.priceText.getD ""
      , details := card.detailsText.getD ""
      , availability := card.availText.getD ""
      , fullText := card.fullText.take 300 }
  , noSitesMessage :=
      if noSitesSignal page.bodyText then
        some "No sites available matching search criteria"
      else none
  , pageText :=
      match page.mainText with
      | some t => t.take 2000
      | none => ""
  , filterOptions := page.filterTexts.map fun f => f.take 100 }

/-! ### Clicks the probe performs before scraping -/

/-- The text test of the date-area click loop (lines 237-243). -/
def dateAreaHit (t : String) : Bool :=
  let text := lowerStr t
  containsStr text "check in" || containsStr text "reservation date" ||
  containsStr text "select date" || containsStr text "any dates"

/-- Index of the first element of `l` satisfying `p`, if any. -/
def firstIdx {α : Type} (p : α → Bool) (l : List α) : Option Nat :=
  (l.findIdx? p)

/-- The indices (into `page.elems`) of the elements clicked by a probe
whose body runs to the scraping step: the edit button if the `page.$`
query on line 224 found one (`editButton.click()`, line 227), then the
first element whose text contains a date phrase (`el.click()`, line 244).
The calendar evaluate on lines 263-286 only collects button data and
clicks nothing, and no other `click` occurs in the probe; in particular
nothing is clicked based on `config.rvType`. -/
def probeClicks (_cfg : Config) (page : Page) : List Nat :=
  (firstIdx (fun e => e.matchesEditSel) page.elems).toList ++
  (firstIdx (fun e => dateAreaHit e.text) page.elems).toList

/-- Number of clicks element `i` of `page.elems` receives. -/
def clickCount (i : Nat) (clicks : List Nat) : Nat :=
  clicks.count i

/-! ### The probe (`checkAvailability`, lines 134-448) -/

/-- Where an exception, if any, interrupts the probe body.  `atLaunch`:
`puppeteer.launch` itself rejects, so `browser` is never assigned;
`inBody`: any later awaited step before the result report throws
(navigation timeout, script-evaluation error, …).  `browser.close()` is
assumed not to throw, as the script does. -/
inductive FailPoint
  | atLaunch
  | inBody
  deriving Repr, DecidableEq

/-- The environment one probe runs against: whether/where an exception
fires, the rendered page, and the raw network responses the interception
handler sees. -/
structure ProbeEnv where
  fail : Option FailPoint
  page : Page
  responses : List RawResponse
  deriving Repr, DecidableEq

/-- Observable outcome of one `checkAvailability` call.  `found` is the
returned value; `opened`/`closed` track the browser session; `notifs`
counts `sendNotification` calls made inside the probe; `errored` records
whether the `catch` block ran (the error itself is never re-thrown);
`reportedCount` is `results.sitesFound.length`, the count the report
prints; `apiCount`/`apiSiteTotal` are what the API-response report logs
(number of captured responses, total records in their recognized
arrays). -/
structure ProbeResult where
  found : Bool
  opened : Bool
  closed : Bool
  notifs : Nat
  errored : Bool
  reportedCount : Nat
  apiCount : Nat
  apiSiteTotal : Nat
  deriving Repr, DecidableEq

/-- The `checkAvailability` probe (lines 134-448).  On the success path: scrape the
page (lines 309-374), log captured API responses (lines 382-401), log the
DOM results and — when sites were found and `--notify` is set — call
`sendNotification` (lines 415-420), close the browser (line 440) and
return `sitesFound.length > 0` (line 442).  On an exception: the `catch`
(lines 443-447) logs, closes the browser if it was assigned, and returns
`false`. -/
def checkAvailability (cfg : Config) (env : ProbeEnv) : ProbeResult :=
  match env.fail with
  | some FailPoint.atLaunch =>
      { found := false, opened := false, closed := false, notifs := 0
      , errored := true, reportedCount := 0, apiCount := 0, apiSiteTotal := 0 }
  | some FailPoint.inBody =>
      { found := false, opened := true, closed := true, notifs := 0
      , errored := true, reportedCount := 0, apiCount := 0, apiSiteTotal := 0 }
  | none =>
      let results := extractResults cfg.rvType cfg.rvLength env.page
      let n := results.sitesFound.length
      let captured := captureApi env.responses
      { found := decide (0 < n)
      , opened := true
      , closed := true
      , notifs := if 0 < n ∧ cfg.notify then 1 else 0
      , errored := false
      , reportedCount := n
      , apiCount := captured.length
      , apiSiteTotal :=
          (captured.map fun r => ((recognizedArray r.data).getD []).length).sum }

/-! ### URL construction (lines 193 and 292) -/

/-- Line 193: `${config.url}?checkIn=${..}&checkOut=${..}&adults=1`. -/
def searchUrl (cfg : Config) : String :=
  cfg.url ++ "?checkIn=" ++ jsTemplate cfg.checkIn ++
    "&checkOut=" ++ jsTemplate cfg.checkOut ++ "&adults=1"

/-- Line 292: `${config.url}?bookNow=true&checkIn=${..}&checkOut=${..}`. -/
def bookNowUrl (cfg : Config) : String :=
  cfg.url ++ "?bookNow=true&checkIn=" ++ jsTemplate cfg.checkIn ++
    "&checkOut=" ++ jsTemplate cfg.checkOut

/-- Characters a syntactically valid URI may contain (RFC 3986:
unreserved, reserved — code point 39 is the single-quote sub-delimiter —
and the percent sign). -/
def isUriChar (c : Char) : Bool :=
  c.isAlphanum || c.toNat == 39 ||
  c ∈ ['-', '.', '_', '~', ':', '/', '?', '#', '[', ']', '@', '!', '$',
       '&', '(', ')', '*', '+', ',', ';', '=', '%']

/-- Syntactic URL validity: an `https://` scheme followed by URI
characters only. -/
def isValidUrl (s : String) : Bool :=
  startsWithL "https://".data s.data && s.data.all isUriChar

/-! ### Loop mode (`runLoop`, lines 451-470) -/

/-- Events observable in one loop iteration. -/
inductive LoopEvent
  | probeRun (found : Bool)
  | notifySent
  | sleepDelay (ms : Nat)
  deriving Repr, DecidableEq

/-- The `setTimeout` delay of line 468, `config.interval * 60 * 1000`
milliseconds; `setTimeout` clamps `NaN` and negative delays to `0`. -/
def sleepMsOf (cfg : Config) : Nat :=
  match cfg.interval with
  | some n => (n * 60 * 1000).toNat
  | none => 0

/-- One iteration of the `while (true)` body (lines 454-469): run
`checkAvailability` to completion (its internal notifications included),
then — if it returned `true` and `--notify` is set — call
`sendNotification` again (lines 459-464), then sleep
`config.interval * 60 * 1000` ms (line 468). -/
def loopIter (cfg : Config) (env : ProbeEnv) : List LoopEvent :=
  let r := checkAvailability cfg env
  (LoopEvent.probeRun r.found ::
    (List.replicate r.notifs LoopEvent.notifySent ++
     (if r.found && cfg.notify then [LoopEvent.notifySent] else []))) ++
  [LoopEvent.sleepDelay (sleepMsOf cfg)]

/-- The event trace of the first `n` iterations of `runLoop`; the
`while (true)` loop has no exit condition, so for every `n` the trace
extends by one more full iteration. -/
def runLoopTrace (cfg : Config) (envs : Nat → ProbeEnv) : Nat → List LoopEvent
  | 0 => []
  | n + 1 => runLoopTrace cfg envs n ++ loopIter cfg (envs n)

/-- Is a loop event a `sendNotification` call? -/
def isNotifyEvt : LoopEvent → Bool
  | LoopEvent.notifySent => true
  | _ => false

/-- Number of `sendNotification` calls in an event list. -/
def countNotify (es : List LoopEvent) : Nat := es.countP isNotifyEvt

/-! ### Spec-side definitions

These follow the specification's words, not the source, and exist only to
be compared against the source-derived definitions above. -/

/-- Spec-side scanner: first match of the pattern `"<number> site(s)
available"` (case-insensitive) in a char list already lower-cased —
"scan all text nodes for a pattern of the form `<number> site(s)
available`; return the first match's number". -/
def specScan : List Char → Option Nat
  | [] => none
  | c :: t =>
    if c.isDigit then
      let ds := (c :: t).takeWhile Char.isDigit
      let rest := (c :: t).dropWhile Char.isDigit
      if startsWithL " sites available".data rest ||
         startsWithL " site available".data rest then
        some (digitsToNat ds)
      else specScan t
    else specScan t

/-- Spec-side extraction count: the number `k` of the first
`"<k> site(s) available"` phrase in the page text, case-insensitively. -/
def specSitesAvailableCount (s : String) : Option Nat :=
  specScan (lowerStr s).data

/-- Spec-side RV-type match: an element "whose visible text equals or
contains the requested type, case-insensitively". -/
def rvTypeMatch (rvType : String) (e : Elem) : Bool :=
  subOf (lowerStr rvType).data (lowerStr e.text).data

/-! ### Concrete fixtures used by counterexamples and witnesses -/

/-- A page whose whole text is the phrase "3 Sites Available" and which
contains no card-selector matches. -/
def pageTextOnly : Page :=
  { elems := []
  , cards := []
  , bodyText := "3 Sites Available"
  , mainText := some "3 Sites Available"
  , filterTexts := [] }

/-- Probe environment: no exception, `pageTextOnly`, no responses. -/
def envTextOnly : ProbeEnv :=
  { fail := none, page := pageTextOnly, responses := [] }

/-- An intercepted API response whose JSON carries one recognizable
availability record under the `sites` key. -/
def rawApiOne : RawResponse :=
  { url := "https://book.lakemcclure.com/api/v1/availability"
  , json := some
      { sites := some [{ name := some "Site A", price := some "$45"
                       , available := some true }]
      , results := none, campsites := none, availability := none } }

/-- Probe environment with API evidence (one recognizable record) but a
DOM without any card-selector match. -/
def envApiOnly : ProbeEnv :=
  { fail := none
  , page := { elems := [], cards := [], bodyText := "", mainText := none
            , filterTexts := [] }
  , responses := [rawApiOne] }

/-- A page whose only interactive element reads "Travel Trailer". -/
def pageRvElem : Page :=
  { elems := [{ text := "Travel Trailer", matchesEditSel := false }]
  , cards := []
  , bodyText := "Travel Trailer"
  , mainText := none
  , filterTexts := [] }

/-- A card-selector match used by success-path witnesses. -/
def cardA : Card :=
  { nameText := some "Site A", priceText := some "$45"
  , detailsText := none, availText := some "Available"
  , fullText := "Site A $45 Available" }

/-- Probe environment with exactly one scraped card and no exception. -/
def envOneCard : ProbeEnv :=
  { fail := none
  , page := { elems := [], cards := [cardA], bodyText := ""
            , mainText := none, filterTexts := [] }
  , responses := [] }

/-- Probe environment in which the body throws after launch. -/
def envBodyFail : ProbeEnv :=
  { fail := some FailPoint.inBody, page := pageTextOnly, responses := [] }

/-- The default configuration with `--notify` set. -/
def cfgNotify : Config := { DEFAULT_CONFIG with notify := true }

/-- Environment `envApiOnly` with the intercepted responses removed: same DOM, no
API evidence. -/
def envApiNone : ProbeEnv := { envApiOnly with responses := [] }

/-- The default configuration with a check-in date containing a space. -/
def cfgSpaceDate : Config := { DEFAULT_CONFIG with checkIn := some "2026 03 13" }

/-! ### Helper lemmas -/

/-- A prefix of `a` is a prefix of `a ++ b`. -/
lemma startsWithL_append (p : List Char) (a b : List Char)
    (h : startsWithL p a = true) : startsWithL p (a ++ b) = true := by
  induction p generalizing a with
  | nil => rfl
  | cons x xs ih =>
    cases a with
    | nil => simp [startsWithL] at h
    | cons y ys =>
      simp only [startsWithL, Bool.and_eq_true] at h
      simp only [List.cons_append, startsWithL, Bool.and_eq_true]
      exact ⟨h.1, ih ys h.2⟩

/-- Appending strings appends their character data. -/
lemma strData_append (s t : String) : (s ++ t).data = s.data ++ t.data := rfl

/-- Appending URI-safe characters to a valid URL keeps it valid. -/
lemma isValidUrl_append (a b : String) (ha : isValidUrl a = true)
    (hb : b.data.all isUriChar = true) : isValidUrl (a ++ b) = true := by
  unfold isValidUrl at ha ⊢
  rw [Bool.and_eq_true] at ha
  rw [strData_append, List.all_append, Bool.and_eq_true]
  exact ⟨startsWithL_append _ _ _ ha.1, by rw [Bool.and_eq_true]; exact ⟨ha.2, hb⟩⟩

/-- Counting a satisfied predicate over `replicate`. -/
lemma countP_replicate_self {α : Type} (n : Nat) (a : α) (p : α → Bool)
    (h : p a = true) : (List.replicate n a).countP p = n := by
  induction n with
  | zero => rfl
  | succ k ih => simp [List.replicate_succ, List.countP_cons, h, ih]

/-! ### Claim theorems -/

/-- C1, counterexample: a rendered page whose entire text is
"3 Sites Available" matches the spec's `"<k> site(s) available"` pattern
with `k = 3`, yet the probe's extraction reports a count of `0` and the
probe returns `false` — the script never scans text for that pattern; it
only counts card-selector DOM matches (lines 309-345, 442). -/
theorem extraction_ignores_count_text :
    specSitesAvailableCount pageTextOnly.bodyText = some 3
    ∧ (checkAvailability DEFAULT_CONFIG envTextOnly).reportedCount = 0
    ∧ (checkAvailability DEFAULT_CONFIG envTextOnly).found = false :=
  ⟨rfl, rfl, rfl⟩

/-- C1 (amended): on every exception-free probe the extraction's count is
the number of card-selector DOM matches — `"<k> site(s) available"` text
plays no role — and the probe's return value is exactly "that count is
positive". -/
theorem reportedCount_eq_card_matches (cfg : Config) (env : ProbeEnv)
    (h : env.fail = none) :
    (checkAvailability cfg env).reportedCount = env.page.cards.length
    ∧ (checkAvailability cfg env).found
        = decide (0 < env.page.cards.length) := by
  simp [checkAvailability, h, extractResults]

/-- C1 witness: the amended statement evaluated on a one-card page. -/
theorem reportedCount_eq_card_matches_witness :
    (checkAvailability DEFAULT_CONFIG envOneCard).reportedCount
        = envOneCard.page.cards.length
    ∧ (checkAvailability DEFAULT_CONFIG envOneCard).found
        = decide (0 < envOneCard.page.cards.length) :=
  reportedCount_eq_card_matches DEFAULT_CONFIG envOneCard rfl

/-- C2: whenever an exception interrupts the probe, the `catch` block
(lines 443-447) takes over: the probe returns `false` rather than
propagating, and if the browser was opened it is closed; on every path
(success included, line 440) an opened browser is closed before the
return. -/
theorem probe_catches_and_closes (cfg : Config) (env : ProbeEnv) :
    ((checkAvailability cfg env).opened = true →
      (checkAvailability cfg env).closed = true)
    ∧ (env.fail.isSome = true →
        (checkAvailability cfg env).found = false
        ∧ (checkAvailability cfg env).errored = true) := by
  rcases h : env.fail with _ | fp
  · simp [checkAvailability, h]
  · cases fp <;> simp [checkAvailability, h]

/-- C2 witness: a probe whose body throws after launch closes the browser
and returns `false`. -/
theorem probe_catches_and_closes_witness :
    (checkAvailability DEFAULT_CONFIG envBodyFail).closed = true
    ∧ (checkAvailability DEFAULT_CONFIG envBodyFail).found = false
    ∧ (checkAvailability DEFAULT_CONFIG envBodyFail).errored = true := by
  have h := probe_catches_and_closes DEFAULT_CONFIG envBodyFail
  exact ⟨h.1 (by decide), (h.2 (by decide)).1, (h.2 (by decide)).2⟩

/-- C3: with RV type "travel trailer" requested (the default config) and
a rendered DOM whose interactive element "Travel Trailer" matches it
case-insensitively, the probe clicks nothing at all — and in general the
set of elements the probe clicks does not depend on the configuration:
`config.rvType` is passed into the page evaluation (line 374) but never
read, so no RV-type filter interaction exists. -/
theorem rvType_filter_never_clicked :
    pageRvElem.elems.map (rvTypeMatch "travel trailer") = [true]
    ∧ probeClicks DEFAULT_CONFIG pageRvElem = []
    ∧ clickCount 0 (probeClicks DEFAULT_CONFIG pageRvElem) = 0
    ∧ ∀ (cfg₁ cfg₂ : Config) (page : Page),
        probeClicks cfg₁ page = probeClicks cfg₂ page :=
  ⟨rfl, rfl, rfl, fun _ _ _ => rfl⟩

/-- C4, counterexample: a probe that captures one API response with a
recognizable one-record `sites` array while the DOM has no card match
still reports `0` sites and returns `false` — the captured API evidence
is logged (lines 382-401) but never overrides the DOM-scraped result
(line 442). -/
theorem api_evidence_does_not_override :
    (checkAvailability DEFAULT_CONFIG envApiOnly).apiCount = 1
    ∧ (checkAvailability DEFAULT_CONFIG envApiOnly).apiSiteTotal = 1
    ∧ (checkAvailability DEFAULT_CONFIG envApiOnly).found = false
    ∧ (checkAvailability DEFAULT_CONFIG envApiOnly).reportedCount = 0 :=
  ⟨rfl, rfl, rfl, rfl⟩

/-- C4 (amended): captured API responses are only printed; on
exception-free probes the returned result and the reported count are
functions of the DOM alone — two probes over the same page but different
intercepted responses return the same value, namely "some card-selector
match exists". -/
theorem probe_result_ignores_api (cfg : Config) (env env' : ProbeEnv)
    (hf : env.fail = none) (hf' : env'.fail = none)
    (hp : env.page = env'.page) :
    (checkAvailability cfg env).found = (checkAvailability cfg env').found
    ∧ (checkAvailability cfg env).reportedCount
        = (checkAvailability cfg env').reportedCount
    ∧ (checkAvailability cfg env).found
        = decide (0 < env.page.cards.length) := by
  simp [checkAvailability, hf, hf', hp, extractResults]

/-- C4 witness: the amended statement evaluated with and without the
captured API response. -/
theorem probe_result_ignores_api_witness :
    (checkAvailability DEFAULT_CONFIG envApiOnly).found
        = (checkAvailability DEFAULT_CONFIG envApiNone).found
    ∧ (checkAvailability DEFAULT_CONFIG envApiOnly).reportedCount
        = (checkAvailability DEFAULT_CONFIG envApiNone).reportedCount
    ∧ (checkAvailability DEFAULT_CONFIG envApiOnly).found
        = decide (0 < envApiOnly.page.cards.length) :=
  probe_result_ignores_api DEFAULT_CONFIG envApiOnly envApiNone rfl rfl rfl

/-- C5: an exception-free probe over a page with no card-selector match
and no recognizable "no sites" phrase reports a count of `0`, returns
`false`, produces no no-sites message, and takes no error path. -/
theorem no_signal_reports_zero (cfg : Config) (env : ProbeEnv)
    (h : env.fail = none) (hc : env.page.cards = [])
    (hn : noSitesSignal env.page.bodyText = false) :
    (checkAvailability cfg env).found = false
    ∧ (checkAvailability cfg env).reportedCount = 0
    ∧ (checkAvailability cfg env).errored = false
    ∧ (extractResults cfg.rvType cfg.rvLength env.page).noSitesMessage
        = none := by
  simp [checkAvailability, h, extractResults, hc, hn]

/-- C5 witness: the statement evaluated on an empty page. -/
theorem no_signal_reports_zero_witness :
    (checkAvailability DEFAULT_CONFIG envApiNone).found = false
    ∧ (checkAvailability DEFAULT_CONFIG envApiNone).reportedCount = 0
    ∧ (checkAvailability DEFAULT_CONFIG envApiNone).errored = false
    ∧ (extractResults DEFAULT_CONFIG.rvType DEFAULT_CONFIG.rvLength
        envApiNone.page).noSitesMessage = none :=
  no_signal_reports_zero DEFAULT_CONFIG envApiNone rfl rfl rfl

/-- C6: every loop iteration runs one probe to completion and ends with a
sleep of `interval * 60 * 1000` ms before the next iteration's probe
starts; the trace of `n + 1` iterations always extends the trace of `n`
by one nonempty iteration (the `while (true)` loop never terminates on
its own), and with `interval = 1` the separating sleep is 60000 ms. -/
theorem runLoop_schedule (cfg : Config) (envs : Nat → ProbeEnv) (n : Nat) :
    runLoopTrace cfg envs (n + 1)
      = runLoopTrace cfg envs n ++ loopIter cfg (envs n)
    ∧ (loopIter cfg (envs n)).head?
        = some (LoopEvent.probeRun (checkAvailability cfg (envs n)).found)
    ∧ (loopIter cfg (envs n)).getLast?
        = some (LoopEvent.sleepDelay (sleepMsOf cfg))
    ∧ (runLoopTrace cfg envs n).length
        < (runLoopTrace cfg envs (n + 1)).length
    ∧ (cfg.interval = some 1 → sleepMsOf cfg = 60 * 1000) := by
  refine ⟨rfl, rfl, ?_, ?_, ?_⟩
  · exact List.getLast?_concat _
  · simp [runLoopTrace, loopIter]
  · intro h
    simp [sleepMsOf, h]

/-- C6 witness: the schedule statement evaluated at the default
configuration with interval 1, a constant environment, and `n = 0`. -/
theorem runLoop_schedule_witness :
    (runLoopTrace { DEFAULT_CONFIG with interval := some 1 }
        (fun _ => envOneCard) 1
      = runLoopTrace { DEFAULT_CONFIG with interval := some 1 }
          (fun _ => envOneCard) 0
        ++ loopIter { DEFAULT_CONFIG with interval := some 1 } envOneCard)
    ∧ (loopIter { DEFAULT_CONFIG with interval := some 1 } envOneCard).head?
        = some (LoopEvent.probeRun
            (checkAvailability { DEFAULT_CONFIG with interval := some 1 }
              envOneCard).found)
    ∧ (loopIter { DEFAULT_CONFIG with interval := some 1 } envOneCard).getLast?
        = some (LoopEvent.sleepDelay
            (sleepMsOf { DEFAULT_CONFIG with interval := some 1 }))
    ∧ (runLoopTrace { DEFAULT_CONFIG with interval := some 1 }
        (fun _ => envOneCard) 0).length
        < (runLoopTrace { DEFAULT_CONFIG with interval := some 1 }
            (fun _ => envOneCard) 1).length
    ∧ sleepMsOf { DEFAULT_CONFIG with interval := some 1 } = 60 * 1000 := by
  have h := runLoop_schedule { DEFAULT_CONFIG with interval := some 1 }
    (fun _ => envOneCard) 0
  exact ⟨h.1, h.2.1, h.2.2.1, h.2.2.2.1, h.2.2.2.2 rfl⟩

/-- C7, counterexample: the dates are spliced into the URL template
(lines 193 and 292) without any escaping, so a check-in string containing
a space yields a syntactically invalid URL for both constructed
navigation targets — the claim's "for every pair of date strings" fails. -/
theorem url_invalid_for_space_date :
    isValidUrl (searchUrl cfgSpaceDate) = false
    ∧ isValidUrl (bookNowUrl cfgSpaceDate) = false :=
  ⟨rfl, rfl⟩

/-- C7 (amended): for date strings consisting only of URI characters (as
the default `YYYY-MM-DD` dates do), both constructed navigation URLs are
the fixed base URL with the dates appended in the provider's parameter
form, and both are syntactically valid. -/
theorem urls_embed_dates_and_valid (cfg : Config) (ci co : String)
    (hu : cfg.url = DEFAULT_CONFIG.url)
    (hci : cfg.checkIn = some ci) (hco : cfg.checkOut = some co)
    (hca : ci.data.all isUriChar = true)
    (hcb : co.data.all isUriChar = true) :
    searchUrl cfg
      = cfg.url ++ "?checkIn=" ++ ci ++ "&checkOut=" ++ co ++ "&adults=1"
    ∧ bookNowUrl cfg
      = cfg.url ++ "?bookNow=true&checkIn=" ++ ci ++ "&checkOut=" ++ co
    ∧ isValidUrl (searchUrl cfg) = true
    ∧ isValidUrl (bookNowUrl cfg) = true := by
  have hbase : isValidUrl cfg.url = true := by rw [hu]; rfl
  refine ⟨by simp [searchUrl, hci, hco, jsTemplate],
          by simp [bookNowUrl, hci, hco, jsTemplate], ?_, ?_⟩
  · rw [searchUrl, hci, hco]
    exact isValidUrl_append _ _ (isValidUrl_append _ _ (isValidUrl_append _ _
      (isValidUrl_append _ _ (isValidUrl_append _ _ hbase rfl) hca) rfl) hcb) rfl
  · rw [bookNowUrl, hci, hco]
    exact isValidUrl_append _ _ (isValidUrl_append _ _
      (isValidUrl_append _ _ (isValidUrl_append _ _ hbase rfl) hca) rfl) hcb

/-- C7 witness: the amended statement evaluated at the default dates. -/
theorem urls_embed_dates_and_valid_witness :
    searchUrl DEFAULT_CONFIG
      = DEFAULT_CONFIG.url ++ "?checkIn=" ++ "2026-03-13"
        ++ "&checkOut=" ++ "2026-03-14" ++ "&adults=1"
    ∧ bookNowUrl DEFAULT_CONFIG
      = DEFAULT_CONFIG.url ++ "?bookNow=true&checkIn=" ++ "2026-03-13"
        ++ "&checkOut=" ++ "2026-03-14"
    ∧ isValidUrl (searchUrl DEFAULT_CONFIG) = true
    ∧ isValidUrl (bookNowUrl DEFAULT_CONFIG) = true :=
  urls_embed_dates_and_valid DEFAULT_CONFIG "2026-03-13" "2026-03-14"
    rfl rfl rfl rfl rfl

/-- C8: inside the probe a desktop notification is attempted exactly when
the reported count is positive and `--notify` is set (lines 415-420), so
a zero-count result never notifies; and `sendNotification` itself
(lines 105-117) swallows a failing or absent platform command and always
emits the terminal bell, never propagating an error. -/
theorem notification_iff_positive (cfg : Config) (env : ProbeEnv)
    (plat : Platform) (cmdOk : Bool) :
    (0 < (checkAvailability cfg env).notifs ↔
      (0 < (checkAvailability cfg env).reportedCount ∧ cfg.notify = true))
    ∧ (sendNotification plat cmdOk).bell = true
    ∧ (sendNotification plat cmdOk).propagated = false := by
  refine ⟨?_, rfl, rfl⟩
  rcases h : env.fail with _ | fp
  · simp only [checkAvailability, h]
    split_ifs with hp
    · simp [hp.1, hp.2]
    · simp only [Nat.lt_irrefl, false_iff]
      exact fun hc => hp ⟨hc.1, hc.2⟩
  · cases fp <;> simp [checkAvailability, h]

/-- C8 witness: the statement evaluated on a notify-enabled probe that
found one site, on macOS with a failing notification command. -/
theorem notification_iff_positive_witness :
    (0 < (checkAvailability cfgNotify envOneCard).notifs ↔
      (0 < (checkAvailability cfgNotify envOneCard).reportedCount
        ∧ cfgNotify.notify = true))
    ∧ (sendNotification Platform.darwin false).bell = true
    ∧ (sendNotification Platform.darwin false).propagated = false :=
  notification_iff_positive cfgNotify envOneCard Platform.darwin false

/-- C9: in loop mode with `--notify` set, an iteration whose probe
returns `true` performs exactly two `sendNotification` calls: one inside
`checkAvailability` (lines 415-420) and one in `runLoop` (lines
459-464). -/
theorem loop_notifies_twice (cfg : Config) (env : ProbeEnv)
    (hn : cfg.notify = true)
    (hf : (checkAvailability cfg env).found = true) :
    countNotify (loopIter cfg env) = 2 := by
  rcases h : env.fail with _ | fp
  · simp only [checkAvailability, h, decide_eq_true_eq] at hf
    unfold countNotify loopIter
    simp [checkAvailability, h, hf, hn, List.countP_append, List.countP_cons,
      isNotifyEvt, countP_replicate_self]
  · cases fp <;> simp [checkAvailability, h] at hf

/-- C9 witness: two notifications in a notify-enabled iteration whose
probe scraped one card. -/
theorem loop_notifies_twice_witness :
    countNotify (loopIter cfgNotify envOneCard) = 2 :=
  loop_notifies_twice cfgNotify envOneCard rfl rfl

/-- Removing the head of a list preserves non-membership. -/
lemma not_mem_tail {a b : String} {l : List String} (h : a ∉ b :: l) :
    a ∉ l := fun hm => h (List.mem_cons_of_mem _ hm)

/-- The parse loop terminates with a configuration on every argument list
that contains no help flag (the only branch that does not return a
configuration). -/
lemma parseLoop_isSome (c : Config) (args : List String) :
    "--help" ∉ args → "-h" ∉ args → (parseLoop c args).isSome = true := by
  induction c, args using parseLoop.induct with
  | case1 c => intro _ _; rfl
  | case2 c ih => intro _ _; rfl
  | case3 c v rest₂ ih =>
      intro h1 h2
      exact ih (not_mem_tail (not_mem_tail h1)) (not_mem_tail (not_mem_tail h2))
  | case4 c _ ih => intro _ _; rfl
  | case5 c v rest₂ _ ih =>
      intro h1 h2
      exact ih (not_mem_tail (not_mem_tail h1)) (not_mem_tail (not_mem_tail h2))
  | case6 c _ _ ih => intro _ _; rfl
  | case7 c v rest₂ _ _ ih =>
      intro h1 h2
      exact ih (not_mem_tail (not_mem_tail h1)) (not_mem_tail (not_mem_tail h2))
  | case8 c _ _ _ ih => intro _ _; rfl
  | case9 c v rest₂ _ _ _ ih =>
      intro h1 h2
      exact ih (not_mem_tail (not_mem_tail h1)) (not_mem_tail (not_mem_tail h2))
  | case10 c rest hn₁ hn₂ hn₃ hn₄ ih =>
      intro h1 h2
      rw [parseLoop.eq_def]
      simp only []
      rw [if_neg hn₁, if_neg hn₂, if_neg hn₃, if_neg hn₄, if_pos trivial]
      exact ih (not_mem_tail h1) (not_mem_tail h2)
  | case11 c _ _ _ _ _ ih => intro _ _; rfl
  | case12 c v rest₂ _ _ _ _ _ ih =>
      intro h1 h2
      exact ih (not_mem_tail (not_mem_tail h1)) (not_mem_tail (not_mem_tail h2))
  | case13 c rest hn₁ hn₂ hn₃ hn₄ hn₅ hn₆ ih =>
      intro h1 h2
      rw [parseLoop.eq_def]
      simp only []
      rw [if_neg hn₁, if_neg hn₂, if_neg hn₃, if_neg hn₄, if_neg hn₅,
        if_neg hn₆, if_pos trivial]
      exact ih (not_mem_tail h1) (not_mem_tail h2)
  | case14 c rest hn₁ hn₂ hn₃ hn₄ hn₅ hn₆ hn₇ ih =>
      intro h1 h2
      rw [parseLoop.eq_def]
      simp only []
      rw [if_neg hn₁, if_neg hn₂, if_neg hn₃, if_neg hn₄, if_neg hn₅,
        if_neg hn₆, if_neg hn₇, if_pos trivial]
      exact ih (not_mem_tail h1) (not_mem_tail h2)
  | case15 c rest hn₁ hn₂ hn₃ hn₄ hn₅ hn₆ hn₇ hn₈ ih =>
      intro h1 h2
      rw [parseLoop.eq_def]
      simp only []
      rw [if_neg hn₁, if_neg hn₂, if_neg hn₃, if_neg hn₄, if_neg hn₅,
        if_neg hn₆, if_neg hn₇, if_neg hn₈, if_pos trivial]
      exact ih (not_mem_tail h1) (not_mem_tail h2)
  | case16 c a rest _ _ _ _ _ _ _ _ _ hd =>
      intro h1 h2
      rcases hd with hd | hd
      · exact absurd (hd ▸ List.mem_cons_self a rest) h1
      · exact absurd (hd ▸ List.mem_cons_self a rest) h2
  | case17 c a rest hn₁ hn₂ hn₃ hn₄ hn₅ hn₆ hn₇ hn₈ hn₉ hn₁₀ ih =>
      intro h1 h2
      rw [parseLoop.eq_def]
      simp only []
      rw [if_neg hn₁, if_neg hn₂, if_neg hn₃, if_neg hn₄, if_neg hn₅,
        if_neg hn₆, if_neg hn₇, if_neg hn₈, if_neg hn₉, if_neg hn₁₀]
      exact ih (not_mem_tail h1) (not_mem_tail h2)

/-- C10, counterexample: on the argument list `["--help"]` the function
does not return a configuration at all — it prints usage and calls
`process.exit(0)` (line 98), modelled by `none` — so "for every
command-line argument list, parseArgs returns … a configuration" fails. -/
theorem parseArgs_exits_on_help : parseArgs ["--help"] = none := rfl

/-- C10 (amended): for every argument list containing neither `--help`
nor `-h`, `parseArgs` returns (never throws) a configuration with every
`DEFAULT_CONFIG` field; tokens matching no known flag are skipped and
change nothing; for a repeated recognized flag the last occurrence wins;
numeric flags go through `parseInt` and a non-numeric value yields `NaN`
(`none`). -/
theorem parseArgs_total_and_last_wins :
    (∀ args : List String, "--help" ∉ args → "-h" ∉ args →
        (parseArgs args).isSome = true)
    ∧ (∀ (c : Config) (t : String) (rest : List String),
        knownToken t = false → parseLoop c (t :: rest) = parseLoop c rest)
    ∧ (∀ v₁ v₂ : String,
        parseArgs ["--check-in", v₁, "--check-in", v₂]
          = some { DEFAULT_CONFIG with checkIn := some v₂ })
    ∧ parseArgs ["--rv-length", "xyz"]
        = some { DEFAULT_CONFIG with rvLength := none } := by
  refine ⟨?_, ?_, ?_, ?_⟩
  · intro args h1 h2
    exact parseLoop_isSome DEFAULT_CONFIG args h1 h2
  · intro c t rest h
    simp only [knownToken, Bool.or_eq_false_iff, beq_eq_false_iff_ne] at h
    obtain ⟨⟨⟨⟨⟨⟨⟨⟨⟨⟨h₁, h₂⟩, h₃⟩, h₄⟩, h₅⟩, h₆⟩, h₇⟩, h₈⟩, h₉⟩, h₁₀⟩, h₁₁⟩ := h
    conv_lhs => rw [parseLoop.eq_def]
    simp [h₁, h₂, h₃, h₄, h₅, h₆, h₇, h₈, h₉, h₁₀, h₁₁]
  · intro v₁ v₂
    rfl
  · rfl

/-- C10 witness: the amended statement's universal parts evaluated on
concrete inputs. -/
theorem parseArgs_total_and_last_wins_witness :
    (parseArgs ["--loop", "--interval", "30", "--mystery"]).isSome = true
    ∧ parseLoop DEFAULT_CONFIG ["--mystery", "--notify"]
        = parseLoop DEFAULT_CONFIG ["--notify"]
    ∧ parseArgs ["--check-in", "2026-05-01", "--check-in", "2026-06-02"]
        = some { DEFAULT_CONFIG with checkIn := some "2026-06-02" } := by
  refine ⟨?_, ?_, ?_⟩
  · exact parseArgs_total_and_last_wins.1 _ (by decide) (by decide)
  · exact parseArgs_total_and_last_wins.2.1 DEFAULT_CONFIG "--mystery"
      ["--notify"] (by decide)
  · exact parseArgs_total_and_last_wins.2.2.1 "2026-05-01" "2026-06-02"

end CampCheck
